import Mathlib

/-!
Verification of the LankaWeather mobile client core logic, shallowly embedded
from src/app/index.tsx (the variant carrying the API-key check, the refresh
flow and the themed gradients; the other two source variants share the same
fetch orchestration shape).  The embedding models the sequential state-update
semantics of the React component: each setX call is a field update on an
explicit component state, the two axios requests are an external oracle, and
the rendered view is a function of the final state.
-/

namespace LankaWeather

/-- Model of the JavaScript string method includes: the search string occurs
as a contiguous substring of the receiver. -/
def jsIncludes (s search : String) : Bool :=
  decide (search.data <:+: s.data)

/-- Model of JavaScript string trim: strip whitespace from both ends. -/
def jsTrim (s : String) : String :=
  String.mk (((s.data.dropWhile Char.isWhitespace).reverse.dropWhile Char.isWhitespace).reverse)

/-- JavaScript falsiness of the API key constant: an absent binding
(undefined) and the empty string are both falsy, so the guard at line 88
of src/app/index.tsx fires for either. -/
def isFalsy : Option String → Bool
  | none => true
  | some s => s == ""

/-- The main block of a current-conditions response (interface WeatherData). -/
structure WeatherMain where
  temp : Rat
  humidity : Rat
  feels_like : Rat
  pressure : Rat
deriving DecidableEq

/-- One element of the weather array of a provider response. -/
structure WeatherCond where
  main : String
  description : String
  icon : String
deriving DecidableEq

/-- Wind block of a current-conditions response. -/
structure Wind where
  speed : Rat
deriving DecidableEq

/-- Sys block of a current-conditions response. -/
structure Sys where
  sunrise : Int
  sunset : Int
deriving DecidableEq

/-- Current-conditions payload, from interface WeatherData in src/app/index.tsx. -/
structure WeatherData where
  name : String
  main : WeatherMain
  weather : List WeatherCond
  wind : Wind
  visibility : Rat
  sys : Sys
deriving DecidableEq

/-- Main block of a forecast entry (interface ForecastItem). -/
structure ForecastMain where
  temp : Rat
  temp_min : Rat
  temp_max : Rat
deriving DecidableEq

/-- One 3-hour forecast sample, from interface ForecastItem in src/app/index.tsx. -/
structure ForecastItem where
  dt_txt : String
  main : ForecastMain
  weather : List WeatherCond
deriving DecidableEq

/-- Property names every JavaScript object literal inherits from
Object.prototype: bracket access on the icon and gradient tables finds these
even though they are not own keys of the literal, and each holds a truthy
value (a function object, or the prototype object itself). -/
def protoKeys : List String :=
  ["constructor", "hasOwnProperty", "isPrototypeOf", "propertyIsEnumerable",
   "toLocaleString", "toString", "valueOf", "__proto__",
   "__defineGetter__", "__defineSetter__", "__lookupGetter__", "__lookupSetter__"]

/-- Result of a JavaScript bracket lookup on an object literal: the value of
an own key, a truthy value inherited from Object.prototype, or undefined. -/
inductive JsLookup (α : Type) where
  | own (v : α)
  | inherited
  | absent
deriving DecidableEq

/-- Bracket access obj.get(key) semantics of a JavaScript object literal: own
keys first, then the prototype chain, then undefined. -/
def jsGet {α : Type} (table : List (String × α)) (key : String) : JsLookup α :=
  match table.lookup key with
  | some v => .own v
  | none => if key ∈ protoKeys then .inherited else .absent

/-- Icon lookup table from getWeatherIcon, lines 30 to 37 of src/app/index.tsx. -/
def iconTable : List (String × String) :=
  [("01d", "☀️"), ("01n", "🌙"), ("02d", "⛅"), ("02n", "☁️"), ("03d", "☁️"), ("03n", "☁️"),
   ("04d", "☁️"), ("04n", "☁️"), ("09d", "🌧️"), ("09n", "🌧️"), ("10d", "🌦️"), ("10n", "🌧️"),
   ("11d", "⛈️"), ("11n", "⛈️"), ("13d", "❄️"), ("13n", "❄️"), ("50d", "🌫️"), ("50n", "🌫️")]

/-- Value returned by getWeatherIcon: a string, or a non-string truthy value
that leaked through the falsy-default because the code named an inherited
Object.prototype property. -/
inductive IconResult where
  | str (s : String)
  | protoValue
deriving DecidableEq

/-- getWeatherIcon: bracket lookup with the falsy-default. An own key yields
its entry; an absent key yields undefined, which is falsy, so the fallback
symbol applies; a key naming an Object.prototype property yields the
inherited truthy value, which the default does not replace. -/
def getWeatherIcon (iconCode : String) : IconResult :=
  match jsGet iconTable iconCode with
  | .own v => .str v
  | .inherited => .protoValue
  | .absent => .str "🌤️"

/-- The Clear palette pair (day colors, night colors) of getAdvancedGradient. -/
def clearGradient : List String × List String :=
  (["#FF9A8B", "#A8E6CF", "#FFD3A5", "#FD9853"],
   ["#2C3E50", "#4A6741", "#34495E", "#2980B9"])

/-- Gradient lookup table from getAdvancedGradient, lines 39 to 73 of
src/app/index.tsx, keyed by the weather category string; each value is the
pair of the day palette and the night palette. -/
def gradientTable : List (String × (List String × List String)) :=
  [("Clear", clearGradient),
   ("Clouds", (["#BDC3C7", "#2C3E50", "#95A5A6", "#34495E"],
               ["#34495E", "#2C3E50", "#7F8C8D", "#2980B9"])),
   ("Rain", (["#3A7BD5", "#00D2FF", "#667db6", "#0082c8"],
             ["#2980B9", "#6BB6FF", "#1B4F72", "#2E86AB"])),
   ("Drizzle", (["#A8E6CF", "#DCEDC1", "#B2DFDB", "#80CBC4"],
                ["#34495E", "#2C3E50", "#5DADE2", "#3498DB"])),
   ("Thunderstorm", (["#654EA3", "#EAAFC8", "#8E44AD", "#C39BD3"],
                     ["#2C3E50", "#8E44AD", "#34495E", "#7D3C98"])),
   ("Snow", (["#E6E6FA", "#FAFAFA", "#D6EAF8", "#EBF5FB"],
             ["#5DADE2", "#85C1E9", "#AED6F1", "#D6EAF8"])),
   ("Mist", (["#D5D4D0", "#D5D4D0", "#EEEEEE", "#EFEEEE"],
             ["#7F8C8D", "#BDC3C7", "#95A5A6", "#AEB6BF"]))]

/-- Value returned by getAdvancedGradient: a palette, or undefined when the
category named an inherited Object.prototype property: the inherited value is
truthy, so the Clear default is skipped, and its day and night fields are
both undefined. -/
inductive GradientResult where
  | palette (colors : List String)
  | undefinedValue
deriving DecidableEq

/-- getAdvancedGradient: bracket lookup with the Clear pair as the
falsy-default, then the day or night column of whatever the lookup
produced. -/
def getAdvancedGradient (weatherMain : String) (isNight : Bool) : GradientResult :=
  match jsGet gradientTable weatherMain with
  | .own colors => .palette (if isNight then colors.2 else colors.1)
  | .inherited => .undefinedValue
  | .absent => .palette (if isNight then clearGradient.2 else clearGradient.1)

/-- Message set by the missing-key guard at line 89. -/
def apiKeyMissingMsg : String :=
  "API Key is missing. Please check your .env file and restart the app."

/-- Message set by the catch block at line 122. -/
def couldNotFindMsg : String :=
  "Could not find weather data. Please try another city."

/-- Warning set by loadInitialWeather when permission is denied, line 133. -/
def permissionDeniedMsg : String :=
  "Permission denied. Showing weather for Colombo."

/-- The component state: one field per useState hook of WeatherApp
(lines 76 to 81; the animation values carry no orchestration data and are
omitted). -/
structure AppState where
  inputCity : String
  weatherData : Option WeatherData
  forecastData : Option (List ForecastItem)
  loading : Bool
  error : Option String
  refreshing : Bool
deriving DecidableEq

/-- Initial state of the hooks on mount. -/
def initialAppState : AppState :=
  { inputCity := "", weatherData := none, forecastData := none,
    loading := true, error := none, refreshing := false }

/-- Request parameters of fetchData: an optional place name or coordinates. -/
structure FetchParams where
  q : Option String
  lat : Option Rat
  lon : Option Rat
deriving DecidableEq

/-- One outbound HTTP request issued by fetchData. -/
inductive ApiCall where
  | weather (params : FetchParams)
  | forecast (params : FetchParams)
deriving DecidableEq

/-- Oracle for the two remote calls of one fetch attempt.  An error value
covers every await rejection: network failure, non-2xx status, or a payload
whose list field cannot be filtered (any of these throws inside the try block
and lands in the catch). -/
structure Network where
  weatherResult : Except Unit WeatherData
  forecastResult : Except Unit (List ForecastItem)

/-- Noon-sample normalization from line 100 of src/app/index.tsx: keep the
forecast entries whose dt_txt contains the substring 12:00:00. -/
def dailyForecasts (l : List ForecastItem) : List ForecastItem :=
  l.filter (fun item => jsIncludes item.dt_txt "12:00:00")

/-- State after the synchronous prefix of fetchData (lines 88 to 94): the
missing-key early return sets the error and clears loading; otherwise the
loading flag is raised and the error is reset to null.  The refreshing value
read by the guard at line 93 is the one captured by the closure of the
fetchData instance being invoked, not the live state: fetchData is recreated
per render and each instance closes over that render's refreshing value. -/
def fetchStart (apiKey : Option String) (capturedRefreshing : Bool) (s : AppState) : AppState :=
  if isFalsy apiKey then
    { s with error := some apiKeyMissingMsg, loading := false }
  else
    { s with loading := if capturedRefreshing then s.loading else true, error := none }

/-- fetchData, lines 87 to 128 of src/app/index.tsx.  The forecast request is
only issued when the first await succeeds (the awaits are sequential); any
rejection lands in the catch block, which stores the generic message and
clears both data fields.  capturedRefreshing is the refreshing value held by
the closure of the invoked instance (see fetchStart); the setters always
update the live state.  Returns the final state and the list of requests
issued. -/
def fetchData (apiKey : Option String) (net : Network) (capturedRefreshing : Bool)
    (s : AppState) (params : FetchParams) : AppState × List ApiCall :=
  let s1 := fetchStart apiKey capturedRefreshing s
  if isFalsy apiKey then (s1, [])
  else
    match net.weatherResult with
    | .error _ =>
        ({ s1 with error := some couldNotFindMsg, weatherData := none,
                   forecastData := none, loading := false, refreshing := false },
         [ApiCall.weather params])
    | .ok w =>
        match net.forecastResult with
        | .error _ =>
            ({ s1 with error := some couldNotFindMsg, weatherData := none,
                       forecastData := none, loading := false, refreshing := false },
             [ApiCall.weather params, ApiCall.forecast params])
        | .ok list =>
            ({ s1 with weatherData := some w,
                       forecastData := some (dailyForecasts list),
                       loading := false, refreshing := false },
             [ApiCall.weather params, ApiCall.forecast params])

/-- handleSearch, lines 153 to 162: a truthy trimmed input triggers a fetch
with the trimmed city as the q parameter and clears the input; a blank input
does nothing.  handleSearch is recreated every render, so the fetchData it
invokes captured the current refreshing value. -/
def handleSearch (apiKey : Option String) (net : Network) (s : AppState) :
    AppState × List ApiCall :=
  if jsTrim s.inputCity == "" then (s, [])
  else
    let r := fetchData apiKey net s.refreshing s
      { q := some (jsTrim s.inputCity), lat := none, lon := none }
    ({ r.1 with inputCity := "" }, r.2)

/-- Outcome of the foreground permission request. -/
inductive PermStatus where
  | granted
  | denied
deriving DecidableEq

/-- A GPS fix. -/
structure Coords where
  latitude : Rat
  longitude : Rat
deriving DecidableEq

/-- loadInitialWeather, lines 130 to 139: denied permission stores the
warning and fetches the Colombo fallback; granted permission fetches by the
device coordinates.  loadInitialWeather is memoized by useCallback with an
empty dependency list, so it forever invokes the mount render's fetchData
instance, whose closure captured refreshing = false (a stale closure): every
fetch it triggers runs the loading-flag branch, even during a refresh. -/
def loadInitialWeather (apiKey : Option String) (net : Network)
    (perm : PermStatus) (pos : Coords) (s : AppState) : AppState × List ApiCall :=
  match perm with
  | .denied =>
      fetchData apiKey net false { s with error := some permissionDeniedMsg }
        { q := some "Colombo", lat := none, lon := none }
  | .granted =>
      fetchData apiKey net false s
        { q := none, lat := some pos.latitude, lon := some pos.longitude }

/-- onRefresh, lines 145 to 151: set the refreshing flag, then rerun the
resolver and fetch (the animation resets carry no orchestration data). -/
def onRefresh (apiKey : Option String) (net : Network) (perm : PermStatus)
    (pos : Coords) (s : AppState) : AppState × List ApiCall :=
  loadInitialWeather apiKey net perm pos { s with refreshing := true }

/-- The component state observable while a refresh attempt waits on the
network: the refreshing flag has been set by onRefresh, the permission
branch of loadInitialWeather has run, and the synchronous prefix of the
mount render's fetchData has run with its stale captured refreshing =
false. -/
def refreshInFlight (apiKey : Option String) (perm : PermStatus) (s : AppState) : AppState :=
  match perm with
  | .denied =>
      fetchStart apiKey false { s with refreshing := true, error := some permissionDeniedMsg }
  | .granted => fetchStart apiKey false { s with refreshing := true }

/-- The view states distinguished by renderContent. -/
inductive ViewState where
  | loading
  | failed (msg : String)
  | ready (w : WeatherData) (forecast : Option (List ForecastItem)) (warning : Option String)
  | empty
deriving DecidableEq

/-- JavaScript truthiness of the error variable (a string or null): null and
the empty string are falsy. -/
def strTruthy : Option String → Bool
  | none => false
  | some s => !(s == "")

/-- Presentation dispatch of renderContent, lines 254 to 275: loading shows
the spinner; a truthy error with no weather data shows the failure screen;
present weather data shows the ready screen whose warning banner is the
error value (rendered only when truthy); otherwise nothing renders. -/
def viewOf (s : AppState) : ViewState :=
  if s.loading then .loading
  else if strTruthy s.error && s.weatherData.isNone then .failed (s.error.getD "")
  else
    match s.weatherData with
    | some w => .ready w s.forecastData s.error
    | none => .empty

/-- The city name rendered on the ready screen, line 305: the name field of
the stored provider response. -/
def displayedCityName (s : AppState) : Option String :=
  s.weatherData.map (fun w => w.name)

/-- The character sequence of the noon sample marker. -/
def noonChars : List Char := ['1', '2', ':', '0', '0', ':', '0', '0']

/-- A provider timestamp of the shape YYYY-MM-DD HH:MM:SS: fourteen digits
separated by the two dashes, the space and the two colons, as the forecast
endpoint emits in its dt_txt field. -/
def WellFormedStamp (s : String) : Prop :=
  ∃ y1 y2 y3 y4 mo1 mo2 d1 d2 h1 h2 mi1 mi2 e1 e2 : Char,
    (∀ c ∈ [y1, y2, y3, y4, mo1, mo2, d1, d2, h1, h2, mi1, mi2, e1, e2], c.isDigit = true) ∧
    s.data = [y1, y2, y3, y4, '-', mo1, mo2, '-', d1, d2, ' ',
              h1, h2, ':', mi1, mi2, ':', e1, e2]

/-- The time-of-day substring of a well formed timestamp: the characters
after the date and the separating space. -/
def timeOfDay (s : String) : String :=
  String.mk (s.data.drop 11)

/-- Reference feed used by concrete witnesses: two samples of one day, of
which only the noon sample survives normalization. -/
def demoFeed : List ForecastItem :=
  [{ dt_txt := "2024-05-01 12:00:00",
     main := { temp := 30, temp_min := 28, temp_max := 31 },
     weather := [{ main := "Clouds", description := "scattered clouds", icon := "03d" }] },
   { dt_txt := "2024-05-01 15:00:00",
     main := { temp := 29, temp_min := 27, temp_max := 30 },
     weather := [{ main := "Rain", description := "light rain", icon := "10d" }] }]

/-- Provider response used by concrete witnesses. -/
def demoWeather : WeatherData :=
  { name := "Colombo",
    main := { temp := 28, humidity := 70, feels_like := 30, pressure := 1000 },
    weather := [{ main := "Clouds", description := "scattered clouds", icon := "03d" }],
    wind := { speed := 5 },
    visibility := 10000,
    sys := { sunrise := 0, sunset := 1 } }

/-- Component state showing live data, used by concrete counterexamples. -/
def readyState : AppState :=
  { inputCity := "", weatherData := some demoWeather, forecastData := some [],
    loading := false, error := none, refreshing := false }

/-- A network oracle in which both requests succeed. -/
def goodNet : Network :=
  { weatherResult := Except.ok demoWeather, forecastResult := Except.ok demoFeed }

/-- A network oracle in which the current-conditions request succeeds but the
forecast request fails. -/
def halfNet : Network :=
  { weatherResult := Except.ok demoWeather, forecastResult := Except.error () }

/-- Request parameters of the Colombo fallback fetch. -/
def pColombo : FetchParams := { q := some "Colombo", lat := none, lon := none }

/-- A settled failed state with a typed city pending in the input box. -/
def failedState : AppState :=
  { inputCity := " Galle ", weatherData := none, forecastData := none,
    loading := false, error := some couldNotFindMsg, refreshing := false }

/-- A settled state whose input box holds only whitespace. -/
def blankState : AppState :=
  { inputCity := "   ", weatherData := none, forecastData := none,
    loading := false, error := none, refreshing := false }

/-- A settled state in which the user typed a city name that differs from the
name the provider will return. -/
def typedState : AppState :=
  { inputCity := "Kandy", weatherData := none, forecastData := none,
    loading := false, error := none, refreshing := false }

theorem noon_infix_iff (y1 y2 y3 y4 mo1 mo2 d1 d2 h1 h2 mi1 mi2 e1 e2 : Char)
    (hdig : ∀ c ∈ [y1, y2, y3, y4, mo1, mo2, d1, d2, h1, h2, mi1, mi2, e1, e2], c.isDigit = true) :
    (noonChars <:+:
      [y1, y2, y3, y4, '-', mo1, mo2, '-', d1, d2, ' ', h1, h2, ':', mi1, mi2, ':', e1, e2]) ↔
    [h1, h2, ':', mi1, mi2, ':', e1, e2] = noonChars := by
  constructor
  · rintro ⟨t, u, heq⟩
    rw [List.append_assoc] at heq
    have hlen := congrArg List.length heq
    simp only [noonChars, List.length_append, List.length_cons, List.length_nil] at hlen
    have hsuf : noonChars ++ u =
        ([y1, y2, y3, y4, '-', mo1, mo2, '-', d1, d2, ' ',
          h1, h2, ':', mi1, mi2, ':', e1, e2]).drop t.length := by
      rw [← heq]
      exact (List.drop_left t (noonChars ++ u)).symm
    obtain ⟨k, hk⟩ : ∃ k, t.length = k := ⟨t.length, rfl⟩
    rw [hk] at hsuf hlen
    have hk11 : k ≤ 11 := by omega
    interval_cases k
    · injection hsuf with i0 hsuf
      injection hsuf with i1 hsuf
      injection hsuf with i2 hsuf
      have hd := hdig y3 (by simp)
      rw [← i2] at hd
      exact absurd hd (by decide)
    · injection hsuf with i0 hsuf
      injection hsuf with i1 hsuf
      injection hsuf with i2 hsuf
      have hd := hdig y4 (by simp)
      rw [← i2] at hd
      exact absurd hd (by decide)
    · injection hsuf with i0 hsuf
      injection hsuf with i1 hsuf
      injection hsuf with i2 hsuf
      exact absurd i2 (by decide)
    · injection hsuf with i0 hsuf
      injection hsuf with i1 hsuf
      injection hsuf with i2 hsuf
      have hd := hdig mo1 (by simp)
      rw [← i2] at hd
      exact absurd hd (by decide)
    · injection hsuf with i0 hsuf
      injection hsuf with i1 hsuf
      injection hsuf with i2 hsuf
      have hd := hdig mo2 (by simp)
      rw [← i2] at hd
      exact absurd hd (by decide)
    · injection hsuf with i0 hsuf
      injection hsuf with i1 hsuf
      injection hsuf with i2 hsuf
      exact absurd i2 (by decide)
    · injection hsuf with i0 hsuf
      injection hsuf with i1 hsuf
      injection hsuf with i2 hsuf
      have hd := hdig d1 (by simp)
      rw [← i2] at hd
      exact absurd hd (by decide)
    · injection hsuf with i0 hsuf
      injection hsuf with i1 hsuf
      injection hsuf with i2 hsuf
      have hd := hdig d2 (by simp)
      rw [← i2] at hd
      exact absurd hd (by decide)
    · injection hsuf with i0 hsuf
      injection hsuf with i1 hsuf
      injection hsuf with i2 hsuf
      exact absurd i2 (by decide)
    · injection hsuf with i0 hsuf
      injection hsuf with i1 hsuf
      injection hsuf with i2 hsuf
      have hd := hdig h1 (by simp)
      rw [← i2] at hd
      exact absurd hd (by decide)
    · injection hsuf with i0 hsuf
      injection hsuf with i1 hsuf
      injection hsuf with i2 hsuf
      have hd := hdig h2 (by simp)
      rw [← i2] at hd
      exact absurd hd (by decide)
    · have hu : u = [] := List.length_eq_zero.mp (by omega)
      subst hu
      rw [List.append_nil] at hsuf
      exact hsuf.symm
  · intro h
    exact ⟨[y1, y2, y3, y4, '-', mo1, mo2, '-', d1, d2, ' '], [],
      by rw [List.append_nil, ← h]; rfl⟩

theorem wellFormed_includes_iff (s : String) (h : WellFormedStamp s) :
    jsIncludes s "12:00:00" = true ↔ timeOfDay s = "12:00:00" := by
  obtain ⟨y1, y2, y3, y4, mo1, mo2, d1, d2, h1, h2, mi1, mi2, e1, e2, hdig, hdata⟩ := h
  have hnoon : ("12:00:00").data = noonChars := rfl
  simp only [jsIncludes, timeOfDay, decide_eq_true_iff, hnoon, hdata]
  have key := noon_infix_iff y1 y2 y3 y4 mo1 mo2 d1 d2 h1 h2 mi1 mi2 e1 e2 hdig
  exact ⟨fun hinf => congrArg String.mk (key.mp hinf),
         fun hh => key.mpr (congrArg String.data hh)⟩

theorem strTruthy_apiKeyMissing : strTruthy (some apiKeyMissingMsg) = true := by decide

theorem strTruthy_couldNotFind : strTruthy (some couldNotFindMsg) = true := by decide

/-- C1: for every forecast feed of well formed provider timestamps, the noon
sample normalization keeps exactly the entries whose time-of-day substring
equals 12:00:00, and its output is a sublist of the input: entries stay in
their original chronological order, and none is invented, duplicated or
reordered. -/
theorem noon_sample_exact (l : List ForecastItem)
    (h : ∀ it ∈ l, WellFormedStamp it.dt_txt) :
    dailyForecasts l = l.filter (fun it => timeOfDay it.dt_txt == "12:00:00") ∧
      List.Sublist (dailyForecasts l) l := by
  refine ⟨List.filter_congr ?_, List.filter_sublist l⟩
  intro it hit
  have hiff := wellFormed_includes_iff it.dt_txt (h it hit)
  cases hb : (timeOfDay it.dt_txt == "12:00:00") with
  | true => exact hiff.mpr (beq_iff_eq.mp hb)
  | false =>
      apply Bool.eq_false_iff.mpr
      intro hx
      exact (beq_eq_false_iff_ne.mp hb) (hiff.mp hx)

/-- Witness for noon_sample_exact at the reference feed. -/
theorem noon_sample_exact_witness :
    (∀ it ∈ demoFeed, WellFormedStamp it.dt_txt) ∧
    (dailyForecasts demoFeed =
        demoFeed.filter (fun it => timeOfDay it.dt_txt == "12:00:00") ∧
      List.Sublist (dailyForecasts demoFeed) demoFeed) := by
  have hwf : ∀ it ∈ demoFeed, WellFormedStamp it.dt_txt := by
    intro it hit
    simp only [demoFeed, List.mem_cons, List.not_mem_nil, or_false] at hit
    rcases hit with rfl | rfl
    · exact ⟨'2', '0', '2', '4', '0', '5', '0', '1', '1', '2', '0', '0', '0', '0',
        by decide, rfl⟩
    · exact ⟨'2', '0', '2', '4', '0', '5', '0', '1', '1', '5', '0', '0', '0', '0',
        by decide, rfl⟩
  exact ⟨hwf, noon_sample_exact demoFeed hwf⟩

/-- C10: the noon sample normalization is idempotent: filtering its own
output changes nothing. -/
theorem noon_sample_idempotent (l : List ForecastItem) :
    dailyForecasts (dailyForecasts l) = dailyForecasts l := by
  simp only [dailyForecasts]
  rw [List.filter_filter]
  simp

/-- C2: when the key is configured and either remote call fails, the fetch
settles in the Failed state with the generic message and discards any partial
data: both the current-conditions field and the forecast field end cleared,
never a partial Ready. -/
theorem half_failure_is_full_failure (apiKey : Option String) (net : Network)
    (cr : Bool) (s : AppState) (p : FetchParams) (hk : isFalsy apiKey = false)
    (hfail : net.weatherResult = Except.error () ∨ net.forecastResult = Except.error ()) :
    (fetchData apiKey net cr s p).1.error = some couldNotFindMsg ∧
    (fetchData apiKey net cr s p).1.weatherData = none ∧
    (fetchData apiKey net cr s p).1.forecastData = none ∧
    viewOf (fetchData apiKey net cr s p).1 = ViewState.failed couldNotFindMsg := by
  rcases hw : net.weatherResult with e | w
  · simp [fetchData, hk, hw, viewOf, strTruthy_couldNotFind]
  · rcases hfail with hfl | hfr
    · rw [hw] at hfl
      cases hfl
    · simp [fetchData, hk, hw, hfr, viewOf, strTruthy_couldNotFind]

/-- Witness for half_failure_is_full_failure: the current-conditions request
succeeds but the forecast request fails. -/
theorem half_failure_witness :
    (fetchData (some "key") halfNet false readyState pColombo).1.error = some couldNotFindMsg ∧
    (fetchData (some "key") halfNet false readyState pColombo).1.weatherData = none ∧
    (fetchData (some "key") halfNet false readyState pColombo).1.forecastData = none ∧
    viewOf (fetchData (some "key") halfNet false readyState pColombo).1 =
      ViewState.failed couldNotFindMsg :=
  half_failure_is_full_failure (some "key") halfNet false readyState pColombo rfl (Or.inr rfl)

/-- C3: a missing or empty credential makes the fetch settle in the Failed
state with the missing-key message and issue zero network requests. -/
theorem missing_key_no_calls (apiKey : Option String) (net : Network)
    (cr : Bool) (s : AppState) (p : FetchParams) (hk : isFalsy apiKey = true)
    (hwd : s.weatherData = none) :
    (fetchData apiKey net cr s p).2 = [] ∧
    (fetchData apiKey net cr s p).1.error = some apiKeyMissingMsg ∧
    viewOf (fetchData apiKey net cr s p).1 = ViewState.failed apiKeyMissingMsg := by
  refine ⟨by simp [fetchData, hk], by simp [fetchData, fetchStart, hk], ?_⟩
  simp [fetchData, fetchStart, hk, viewOf, strTruthy_apiKeyMissing, hwd]

/-- Witness for missing_key_no_calls at the empty credential. -/
theorem missing_key_witness :
    (fetchData (some "") goodNet false initialAppState pColombo).2 = [] ∧
    (fetchData (some "") goodNet false initialAppState pColombo).1.error = some apiKeyMissingMsg ∧
    viewOf (fetchData (some "") goodNet false initialAppState pColombo).1 =
      ViewState.failed apiKeyMissingMsg :=
  missing_key_no_calls (some "") goodNet false initialAppState pColombo rfl rfl

/-- C5: fetchData always resolves to a settled view state: whatever the key,
oracle and prior state, the resulting state has its loading flag cleared, the
induced view is never the Loading state, and the error field holds null or
one of the two captured failure messages, so no failure escapes the
orchestrator boundary. -/
theorem fetch_always_resolves (apiKey : Option String) (net : Network)
    (cr : Bool) (s : AppState) (p : FetchParams) :
    (fetchData apiKey net cr s p).1.loading = false ∧
    viewOf (fetchData apiKey net cr s p).1 ≠ ViewState.loading ∧
    ((fetchData apiKey net cr s p).1.error = none ∨
     (fetchData apiKey net cr s p).1.error = some apiKeyMissingMsg ∨
     (fetchData apiKey net cr s p).1.error = some couldNotFindMsg) := by
  cases hk : isFalsy apiKey with
  | true =>
      cases hwd : s.weatherData with
      | none => simp [fetchData, fetchStart, hk, viewOf, strTruthy_apiKeyMissing, hwd]
      | some w => simp [fetchData, fetchStart, hk, viewOf, strTruthy_apiKeyMissing, hwd]
  | false =>
      rcases hw : net.weatherResult with e | w
      · simp [fetchData, fetchStart, hk, hw, viewOf, strTruthy_couldNotFind]
      · rcases hf : net.forecastResult with e | fl
        · simp [fetchData, fetchStart, hk, hw, hf, viewOf, strTruthy_couldNotFind]
        · simp [fetchData, fetchStart, hk, hw, hf, viewOf]

/-- C4 (code bug evidence): with permission denied, the resolver does fetch
the Colombo fallback query, but on a fully successful fetch the final view is
Ready with NO warning: the synchronous prefix of fetchData resets the error
to null right after loadInitialWeather stored the advisory, so the
permission-denied warning never reaches the Ready state. -/
theorem permission_warning_dropped :
    (loadInitialWeather (some "key") goodNet PermStatus.denied ⟨0, 0⟩ initialAppState).2 =
      [ApiCall.weather pColombo, ApiCall.forecast pColombo] ∧
    viewOf (loadInitialWeather (some "key") goodNet PermStatus.denied ⟨0, 0⟩ initialAppState).1 =
      ViewState.ready demoWeather (some (dailyForecasts demoFeed)) none ∧
    (loadInitialWeather (some "key") goodNet PermStatus.denied ⟨0, 0⟩ initialAppState).1.error =
      none := by
  refine ⟨rfl, ?_, rfl⟩
  rfl

/-- C7: from a settled state (refreshing flag clear, as in any completed
Ready or Failed attempt), with a configured key, both a manual refresh and a
new search over a nonblank input first show the Loading view and only then
settle in Ready or Failed, so both states are re-enterable.  The refresh
passes through Loading because loadInitialWeather, memoized at mount, invokes
the mount render's fetchData whose stale closure captured refreshing = false,
so the guard at line 93 runs setLoading(true) even while refreshing. -/
theorem reentry_through_loading (apiKey : Option String) (net : Network)
    (s : AppState) (perm : PermStatus) (pos : Coords)
    (hk : isFalsy apiKey = false) (hr : s.refreshing = false)
    (hin : (jsTrim s.inputCity == "") = false) :
    viewOf (refreshInFlight apiKey perm s) = ViewState.loading ∧
    viewOf (fetchStart apiKey s.refreshing s) = ViewState.loading ∧
    ((∃ m, viewOf (handleSearch apiKey net s).1 = ViewState.failed m) ∨
     (∃ w f wn, viewOf (handleSearch apiKey net s).1 = ViewState.ready w f wn)) ∧
    ((∃ m, viewOf (onRefresh apiKey net perm pos s).1 = ViewState.failed m) ∨
     (∃ w f wn, viewOf (onRefresh apiKey net perm pos s).1 = ViewState.ready w f wn)) := by
  refine ⟨?_, ?_, ?_, ?_⟩
  · cases perm <;> simp [refreshInFlight, fetchStart, hk, viewOf]
  · simp [fetchStart, hk, hr, viewOf]
  · rcases hw : net.weatherResult with e | w
    · exact Or.inl ⟨couldNotFindMsg,
        by simp [handleSearch, hin, fetchData, hk, hw, viewOf, strTruthy_couldNotFind]⟩
    · rcases hf : net.forecastResult with e | fl
      · exact Or.inl ⟨couldNotFindMsg,
          by simp [handleSearch, hin, fetchData, hk, hw, hf, viewOf, strTruthy_couldNotFind]⟩
      · exact Or.inr ⟨w, some (dailyForecasts fl), none,
          by simp [handleSearch, hin, fetchData, fetchStart, hk, hw, hf, viewOf]⟩
  · rcases hw : net.weatherResult with e | w
    · exact Or.inl ⟨couldNotFindMsg,
        by cases perm <;>
          simp [onRefresh, loadInitialWeather, fetchData, hk, hw, viewOf, strTruthy_couldNotFind]⟩
    · rcases hf : net.forecastResult with e | fl
      · exact Or.inl ⟨couldNotFindMsg,
          by cases perm <;>
            simp [onRefresh, loadInitialWeather, fetchData, hk, hw, hf, viewOf,
              strTruthy_couldNotFind]⟩
      · exact Or.inr ⟨w, some (dailyForecasts fl), none,
          by cases perm <;>
            simp [onRefresh, loadInitialWeather, fetchData, fetchStart, hk, hw, hf, viewOf]⟩

/-- Witness for reentry_through_loading: a refresh and a search over a
settled failed state holding a typed city, with a successful oracle. -/
theorem reentry_through_loading_witness :
    viewOf (refreshInFlight (some "key") PermStatus.granted failedState) = ViewState.loading ∧
    viewOf (fetchStart (some "key") failedState.refreshing failedState) = ViewState.loading ∧
    ((∃ m, viewOf (handleSearch (some "key") goodNet failedState).1 = ViewState.failed m) ∨
     (∃ w f wn, viewOf (handleSearch (some "key") goodNet failedState).1 =
        ViewState.ready w f wn)) ∧
    ((∃ m, viewOf (onRefresh (some "key") goodNet PermStatus.granted ⟨7, 80⟩ failedState).1 =
        ViewState.failed m) ∨
     (∃ w f wn, viewOf (onRefresh (some "key") goodNet PermStatus.granted ⟨7, 80⟩ failedState).1 =
        ViewState.ready w f wn)) :=
  reentry_through_loading (some "key") goodNet failedState PermStatus.granted ⟨7, 80⟩
    rfl rfl (by decide)

/-- C8: once a search settles in Ready, the rendered city name is the name
field of the provider response, independent of the string the user typed. -/
theorem provider_name_authoritative (apiKey : Option String) (net : Network)
    (s : AppState) (w : WeatherData) (fl : List ForecastItem)
    (hk : isFalsy apiKey = false) (hin : (jsTrim s.inputCity == "") = false)
    (hw : net.weatherResult = Except.ok w) (hf : net.forecastResult = Except.ok fl) :
    displayedCityName (handleSearch apiKey net s).1 = some w.name ∧
    viewOf (handleSearch apiKey net s).1 =
      ViewState.ready w (some (dailyForecasts fl)) none := by
  constructor
  · simp [handleSearch, hin, fetchData, hk, hw, hf, displayedCityName]
  · simp [handleSearch, hin, fetchData, fetchStart, hk, hw, hf, viewOf]

/-- Witness for provider_name_authoritative: the user typed Kandy but the
provider replied with Colombo, which is what is shown. -/
theorem provider_name_witness :
    displayedCityName (handleSearch (some "key") goodNet typedState).1 = some "Colombo" ∧
    viewOf (handleSearch (some "key") goodNet typedState).1 =
      ViewState.ready demoWeather (some (dailyForecasts demoFeed)) none :=
  provider_name_authoritative (some "key") goodNet typedState demoWeather demoFeed
    rfl (by decide) rfl rfl

/-- C9: submitting a blank or whitespace-only input is a no-op: no request is
issued and the whole observable state, the input text included, is unchanged. -/
theorem blank_search_noop (apiKey : Option String) (net : Network) (s : AppState)
    (hb : jsTrim s.inputCity = "") :
    handleSearch apiKey net s = (s, []) := by
  simp [handleSearch, hb]

/-- Witness for blank_search_noop at a whitespace-only input. -/
theorem blank_search_noop_witness :
    handleSearch (some "key") goodNet blankState = (blankState, []) :=
  blank_search_noop (some "key") goodNet blankState (by decide)

/-- C6 counterexample: the key toString is absent from both tables, yet
bracket lookup finds the inherited Object.prototype property, a truthy value
the falsy-default does not replace: the icon mapping returns the inherited
non-string value instead of the fallback symbol, and the theme mapping
returns undefined instead of the Clear palette. -/
theorem proto_key_leaks :
    iconTable.lookup "toString" = none ∧
    getWeatherIcon "toString" = IconResult.protoValue ∧
    getWeatherIcon "toString" ≠ IconResult.str "🌤️" ∧
    gradientTable.lookup "toString" = none ∧
    getAdvancedGradient "toString" false = GradientResult.undefinedValue ∧
    getAdvancedGradient "toString" false ≠ GradientResult.palette clearGradient.1 := by
  decide

/-- C6 (amended): the two mappings are total pure lookups with the documented
fallback for ordinary unknown keys: a key in the table yields its entry, and
a key that is neither in the table nor the name of an Object.prototype
property yields the defined fallback (the fallback icon symbol, or the Clear
palette); a key naming an inherited Object.prototype property, however, leaks
the inherited truthy value through the falsy-default: the icon mapping
returns that non-string value and the theme mapping returns undefined.
No key is an error. -/
theorem lookup_tables_total (code cat v : String)
    (g : List String × List String) (night : Bool) :
    (iconTable.lookup code = some v → getWeatherIcon code = IconResult.str v) ∧
    (iconTable.lookup code = none → code ∉ protoKeys →
      getWeatherIcon code = IconResult.str "🌤️") ∧
    (iconTable.lookup code = none → code ∈ protoKeys →
      getWeatherIcon code = IconResult.protoValue) ∧
    (gradientTable.lookup cat = some g →
      getAdvancedGradient cat night = GradientResult.palette (if night then g.2 else g.1)) ∧
    (gradientTable.lookup cat = none → cat ∉ protoKeys →
      getAdvancedGradient cat night =
        GradientResult.palette (if night then clearGradient.2 else clearGradient.1)) ∧
    (gradientTable.lookup cat = none → cat ∈ protoKeys →
      getAdvancedGradient cat night = GradientResult.undefinedValue) := by
  refine ⟨?_, ?_, ?_, ?_, ?_, ?_⟩
  · intro h
    simp [getWeatherIcon, jsGet, h]
  · intro h hp
    simp [getWeatherIcon, jsGet, h, hp]
  · intro h hp
    simp [getWeatherIcon, jsGet, h, hp]
  · intro h
    simp [getAdvancedGradient, jsGet, h]
  · intro h hp
    simp [getAdvancedGradient, jsGet, h, hp]
  · intro h hp
    simp [getAdvancedGradient, jsGet, h, hp]

/-- Witness for lookup_tables_total: a present icon code, an ordinary unknown
icon code, an inherited icon key, a present category, an ordinary unknown
category and an inherited category key. -/
theorem lookup_tables_total_witness :
    (iconTable.lookup "01d" = some "☀️" ∧ getWeatherIcon "01d" = IconResult.str "☀️") ∧
    (iconTable.lookup "99x" = none ∧ "99x" ∉ protoKeys ∧
      getWeatherIcon "99x" = IconResult.str "🌤️") ∧
    (iconTable.lookup "valueOf" = none ∧ "valueOf" ∈ protoKeys ∧
      getWeatherIcon "valueOf" = IconResult.protoValue) ∧
    (gradientTable.lookup "Rain" =
        some (["#3A7BD5", "#00D2FF", "#667db6", "#0082c8"],
              ["#2980B9", "#6BB6FF", "#1B4F72", "#2E86AB"]) ∧
      getAdvancedGradient "Rain" true =
        GradientResult.palette ["#2980B9", "#6BB6FF", "#1B4F72", "#2E86AB"]) ∧
    (gradientTable.lookup "Fog" = none ∧ "Fog" ∉ protoKeys ∧
      getAdvancedGradient "Fog" false = GradientResult.palette clearGradient.1) ∧
    (gradientTable.lookup "constructor" = none ∧ "constructor" ∈ protoKeys ∧
      getAdvancedGradient "constructor" true = GradientResult.undefinedValue) :=
  ⟨⟨rfl, (lookup_tables_total "01d" "Clear" "☀️" clearGradient false).1 rfl⟩,
   ⟨rfl, by decide, (lookup_tables_total "99x" "Clear" "" clearGradient false).2.1 rfl
      (by decide)⟩,
   ⟨rfl, by decide, (lookup_tables_total "valueOf" "Clear" "" clearGradient false).2.2.1 rfl
      (by decide)⟩,
   ⟨rfl, (lookup_tables_total "01d" "Rain" ""
      (["#3A7BD5", "#00D2FF", "#667db6", "#0082c8"],
       ["#2980B9", "#6BB6FF", "#1B4F72", "#2E86AB"]) true).2.2.2.1 rfl⟩,
   ⟨rfl, by decide, (lookup_tables_total "01d" "Fog" "" clearGradient false).2.2.2.2.1 rfl
      (by decide)⟩,
   ⟨rfl, by decide, (lookup_tables_total "01d" "constructor" "" clearGradient true).2.2.2.2.2
      rfl (by decide)⟩⟩

end LankaWeather
